import Mathlib

/-!
Verification development for the Asimov safety engine
(src/backend/python_api/core/asimov_rules.py).

The engine is shallowly embedded: Python dicts become association lists
(first match wins, so earlier entries shadow later ones — a dict literal
with later overriding keys is modelled by placing the overriding entries
first), Python scalar values become the `Value` inductive, and code that
can raise an exception returns `Except String`.  Mutable engine state
(`AsimovSafetyEngine.__init__`) is threaded explicitly as `EngineState`.

A central modelling fact, used below: `SafetyLevel` in the source derives
from plain `Enum`, whose members define no order comparison, so the calls
`max(safety_level, SafetyLevel.DANGEROUS)` (line 322) and
`max(safety_level, SafetyLevel.CAUTION)` (line 336) raise `TypeError`
whenever they are reached.  The model makes `enumMax` return
`Except.error` accordingly.
-/

/-- `class SafetyLevel(Enum)` (lines 21-26).  Plain `Enum`: members compare
only for equality, not order. -/
inductive SafetyLevel where
  | SAFE
  | CAUTION
  | DANGEROUS
  | PROHIBITED
deriving DecidableEq, Repr

/-- The string `.value` of each `SafetyLevel` member. -/
def SafetyLevel.value : SafetyLevel → String
  | .SAFE => "safe"
  | .CAUTION => "caution"
  | .DANGEROUS => "dangerous"
  | .PROHIBITED => "prohibited"

/-- `class AsimovLaw(Enum)` (lines 28-32). -/
inductive AsimovLaw where
  | FIRST
  | SECOND
  | THIRD
deriving DecidableEq, Repr

/-- Python scalar values that occur in action contexts: strings, ints,
bools and `None`. -/
inductive Value where
  | str (s : String)
  | int (n : Int)
  | bool (b : Bool)
  | none
deriving DecidableEq, Repr

/-- A Python dict of scalars, as an association list.  Lookup takes the
first matching key, so earlier entries shadow later ones. -/
abbrev Context := List (String × Value)

/-- Python `==` on scalar values: numbers and bools compare numerically
(`True == 1`), strings compare as strings, `None` equals only `None`,
and cross-kind comparison yields `False`. -/
def pyEq : Value → Value → Bool
  | .str a, .str b => a == b
  | .int a, .int b => a == b
  | .bool a, .bool b => a == b
  | .int a, .bool b => a == (if b then (1 : Int) else 0)
  | .bool a, .int b => (if a then (1 : Int) else 0) == b
  | .none, .none => true
  | _, _ => false

/-- Numeric view of a value: ints and bools are numbers (`True` is 1),
strings and `None` are not. -/
def Value.toIntQ : Value → Option Int
  | .int n => some n
  | .bool b => some (if b then 1 else 0)
  | _ => Option.none

/-- Python `<` on scalar values: both strings → lexicographic, both
numeric → numeric, otherwise `TypeError`. -/
def pyLt : Value → Value → Except String Bool
  | .str a, .str b => Except.ok (decide (a < b))
  | a, b =>
    match a.toIntQ, b.toIntQ with
    | some x, some y => Except.ok (decide (x < y))
    | _, _ => Except.error "TypeError: unorderable operand types"

/-- Python `>` on scalar values. -/
def pyGt (a b : Value) : Except String Bool := pyLt b a

/-- Python `>=` on scalar values (total order: `a >= b` iff `not (a < b)`). -/
def pyGe (a b : Value) : Except String Bool :=
  match pyLt a b with
  | Except.ok r => Except.ok (!r)
  | Except.error e => Except.error e

/-- Python truthiness of a scalar value. -/
def pyTruthy : Value → Bool
  | .str s => s ≠ ""
  | .int n => n ≠ 0
  | .bool b => b
  | .none => false

/-- `d.get(k, default)` on a dict. -/
def pyGetDefault (ctx : Context) (k : String) (d : Value) : Value :=
  match ctx.lookup k with
  | some v => v
  | Option.none => d

/-- Name lookup inside `eval`: a missing name raises `NameError`. -/
def pyName (env : Context) (k : String) : Except String Value :=
  match env.lookup k with
  | some v => Except.ok v
  | Option.none => Except.error ("NameError: name " ++ k ++ " is not defined")

/-- `@dataclass SafetyRule` (lines 34-45).  The `condition` source string
is not stored; its `eval` semantics is given per rule id by
`evalCondId` below.  The unused `metadata` field is omitted. -/
structure SafetyRule where
  id : String
  law : AsimovLaw
  name : String
  description : String
  action : String
  priority : Nat
  enabled : Bool := true
deriving DecidableEq, Repr

/-- `@dataclass SafetyCheck` (lines 47-57). -/
structure SafetyCheck where
  approved : Bool
  violated_laws : List AsimovLaw
  violated_rules : List String
  safety_level : SafetyLevel
  reason : String
  recommendations : List String
  requires_approval : Bool := false
  approval_level : String := "operator"
deriving DecidableEq, Repr

/-- Rule fl_001 (lines 94-102).
condition: action_type in ["physical_access", "social_engineering", "doxxing"] -/
def fl_001 : SafetyRule :=
  { id := "fl_001", law := AsimovLaw.FIRST, name := "No Human Harm",
    description := "Prevent any action that could directly harm humans",
    action := "block", priority := 1 }

/-- Rule fl_002 (lines 103-111).
condition: target_type in ["hospital", "power_grid", "water_supply", "emergency_services"] -/
def fl_002 : SafetyRule :=
  { id := "fl_002", law := AsimovLaw.FIRST, name := "No Critical Infrastructure Attack",
    description := "Prevent attacks on critical infrastructure",
    action := "block", priority := 1 }

/-- Rule fl_003 (lines 112-120).
condition: data_type in ["pii", "medical", "financial", "personal"] -/
def fl_003 : SafetyRule :=
  { id := "fl_003", law := AsimovLaw.FIRST, name := "No Personal Data Exposure",
    description := "Prevent exposure of personal sensitive data",
    action := "require_approval", priority := 2 }

/-- Rule fl_004 (lines 121-129).
condition: operation_type in ["delete", "destroy", "corrupt", "wipe"] -/
def fl_004 : SafetyRule :=
  { id := "fl_004", law := AsimovLaw.FIRST, name := "No Destructive Operations",
    description := "Prevent destructive operations that could cause harm",
    action := "require_approval", priority := 2 }

/-- Rule fl_005 (lines 130-138).
condition: involves_private_data == True -/
def fl_005 : SafetyRule :=
  { id := "fl_005", law := AsimovLaw.FIRST, name := "Privacy Protection",
    description := "Protect individual privacy rights",
    action := "require_justification", priority := 3 }

/-- Rule sl_001 (lines 143-151).
condition: operator_authenticated == True -/
def sl_001 : SafetyRule :=
  { id := "sl_001", law := AsimovLaw.SECOND, name := "Operator Command Authority",
    description := "Follow authenticated operator commands",
    action := "allow", priority := 4 }

/-- Rule sl_002 (lines 152-160).
condition: emergency_override == True and authorization_level >= "admin" -/
def sl_002 : SafetyRule :=
  { id := "sl_002", law := AsimovLaw.SECOND, name := "Emergency Override",
    description := "Allow emergency override by authorized personnel",
    action := "allow_with_logging", priority := 3 }

/-- Rule sl_003 (lines 161-169).
condition: command_violates_first_law == True -/
def sl_003 : SafetyRule :=
  { id := "sl_003", law := AsimovLaw.SECOND, name := "Command Validation",
    description := "Validate commands don\x27t violate First Law",
    action := "block", priority := 1 }

/-- Rule sl_004 (lines 170-178).
condition: operator_permission_level < required_permission_level -/
def sl_004 : SafetyRule :=
  { id := "sl_004", law := AsimovLaw.SECOND, name := "Authorization Check",
    description := "Ensure operator has required permissions",
    action := "block", priority := 2 }

/-- Rule tl_001 (lines 183-191).
condition: action_threatens_system == True -/
def tl_001 : SafetyRule :=
  { id := "tl_001", law := AsimovLaw.THIRD, name := "System Protection",
    description := "Protect system integrity and availability",
    action := "require_approval", priority := 5 }

/-- Rule tl_002 (lines 192-200).
condition: resource_usage > 90 -/
def tl_002 : SafetyRule :=
  { id := "tl_002", law := AsimovLaw.THIRD, name := "Resource Protection",
    description := "Prevent resource exhaustion",
    action := "limit_operations", priority := 6 }

/-- Rule tl_003 (lines 201-209).
condition: action_type == "modify_logs" -/
def tl_003 : SafetyRule :=
  { id := "tl_003", law := AsimovLaw.THIRD, name := "Data Integrity",
    description := "Protect mission logs and evidence",
    action := "block", priority := 4 }

/-- Rule tl_004 (lines 210-218).
condition: communication_insecure == True -/
def tl_004 : SafetyRule :=
  { id := "tl_004", law := AsimovLaw.THIRD, name := "Network Security",
    description := "Maintain secure communications",
    action := "require_encryption", priority := 5 }

/-- `_load_core_rules` inserts the thirteen core rules into `self.rules`
(a dict, iterated in insertion order) in this order (lines 221-224). -/
def core_rules : List SafetyRule :=
  [fl_001, fl_002, fl_003, fl_004, fl_005,
   sl_001, sl_002, sl_003, sl_004,
   tl_001, tl_002, tl_003, tl_004]

/-- `_initialize_prohibited_actions` (lines 226-257). -/
def prohibited_actions : List String :=
  ["physical_attack", "weapon_systems", "explosive_devices",
   "power_grid_attack", "water_supply_attack", "hospital_systems_attack",
   "emergency_services_attack", "air_traffic_control_attack",
   "doxxing", "stalking", "harassment", "identity_theft", "financial_fraud",
   "data_destruction", "system_corruption", "permanent_damage",
   "unauthorized_surveillance", "private_data_theft", "medical_record_access"]

/-- A dangerous-pattern regex from `_initialize_dangerous_patterns`
(lines 259-280).  Every source pattern is a case-insensitive alternation
of literal words (where the regex dot matches any single character),
optionally followed by a dot-star and one more literal word.  `alts ws`
models the regex `(?i)(w1|w2|...)`; `seqStar ws t` models
`(?i)(w1|w2|...).*t`. -/
inductive PatExpr where
  | alts (ws : List String)
  | seqStar (ws : List String) (tail : String)
deriving DecidableEq, Repr

/-- One pattern character against one text character: the regex dot
matches anything, other characters match case-insensitively. -/
def char_match (p c : Char) : Bool :=
  p == '.' || p.toLower == c.toLower

/-- Does the word match a prefix of the text? -/
def lit_match_at : List Char → List Char → Bool
  | [], _ => true
  | _ :: _, [] => false
  | p :: ps, c :: cs => char_match p c && lit_match_at ps cs

/-- `re.search` of a single word: match at any position. -/
def lit_search (pat : List Char) : List Char → Bool
  | [] => lit_match_at pat []
  | c :: cs => lit_match_at pat (c :: cs) || lit_search pat cs

/-- `re.search` of `word.*tail`: the word matches at some position and
the tail matches anywhere at or after the end of that word match. -/
def pair_search (a tail : List Char) : List Char → Bool
  | [] => lit_match_at a [] && lit_search tail []
  | c :: cs =>
    (lit_match_at a (c :: cs) && lit_search tail ((c :: cs).drop a.length))
    || pair_search a tail cs

/-- `re.search(pattern, text)` for a dangerous pattern. -/
def pat_search (p : PatExpr) (text : String) : Bool :=
  match p with
  | .alts ws => ws.any (fun w => lit_search w.toList text.toList)
  | .seqStar ws t => ws.any (fun w => pair_search w.toList t.toList text.toList)

/-- One entry of `self.dangerous_patterns`: pattern and its label. -/
structure DangerPattern where
  pat : PatExpr
  label : String
deriving DecidableEq, Repr

/-- `_initialize_dangerous_patterns` (lines 259-280), in dict insertion
order. -/
def dangerous_patterns : List DangerPattern :=
  [ { pat := PatExpr.alts ["ddos", "denial.of.service"], label := "DDoS attack patterns" },
    { pat := PatExpr.alts ["ransomware", "crypto.lock"], label := "Ransomware indicators" },
    { pat := PatExpr.alts ["botnet", "zombie"], label := "Botnet operations" },
    { pat := PatExpr.seqStar ["delete", "drop", "truncate"] "database", label := "Database destruction" },
    { pat := PatExpr.seqStar ["format", "wipe", "erase"] "drive", label := "Data wiping operations" },
    { pat := PatExpr.seqStar ["steal", "exfiltrate", "extract"] "data", label := "Data theft operations" },
    { pat := PatExpr.alts ["backdoor", "rootkit", "trojan"], label := "Malware installation" },
    { pat := PatExpr.alts ["privilege.escalation", "admin.access"], label := "Unauthorized access" },
    { pat := PatExpr.alts ["keylogger", "screen.capture"], label := "Surveillance tools" },
    { pat := PatExpr.alts ["phishing", "social.engineering"], label := "Social engineering" },
    { pat := PatExpr.alts ["impersonat", "identity.theft"], label := "Identity crimes" } ]

/-- The evaluation environment built by `_evaluate_rule_condition`
(lines 369-372): `eval_context = dict with action_type, then **context`,
so a context entry named action_type overrides the engine-supplied one.
With first-match lookup that means the context goes first. -/
def eval_env (action_type : String) (ctx : Context) : Context :=
  ctx ++ [("action_type", Value.str action_type)]

/-- Python semantics of `eval(rule.condition, ..., eval_context)` for
each core rule, keyed by rule id (the condition strings are fixed in the
source and quoted in the doc comment of each rule above).  A missing
name raises `NameError`; `and` is short-circuiting; comparisons between
incompatible kinds raise `TypeError`.  Ids outside the core set never
occur in the engine; evaluating them is modelled as an error (which the
caller turns into `False`). -/
def evalCondId (rid : String) (env : Context) : Except String Bool :=
  match rid with
  | "fl_001" => do
      let v ← pyName env "action_type"
      Except.ok (["physical_access", "social_engineering", "doxxing"].any
        (fun s => pyEq v (Value.str s)))
  | "fl_002" => do
      let v ← pyName env "target_type"
      Except.ok (["hospital", "power_grid", "water_supply", "emergency_services"].any
        (fun s => pyEq v (Value.str s)))
  | "fl_003" => do
      let v ← pyName env "data_type"
      Except.ok (["pii", "medical", "financial", "personal"].any
        (fun s => pyEq v (Value.str s)))
  | "fl_004" => do
      let v ← pyName env "operation_type"
      Except.ok (["delete", "destroy", "corrupt", "wipe"].any
        (fun s => pyEq v (Value.str s)))
  | "fl_005" => do
      let v ← pyName env "involves_private_data"
      Except.ok (pyEq v (Value.bool true))
  | "sl_001" => do
      let v ← pyName env "operator_authenticated"
      Except.ok (pyEq v (Value.bool true))
  | "sl_002" => do
      let v ← pyName env "emergency_override"
      if pyEq v (Value.bool true) then do
        let w ← pyName env "authorization_level"
        pyGe w (Value.str "admin")
      else
        Except.ok false
  | "sl_003" => do
      let v ← pyName env "command_violates_first_law"
      Except.ok (pyEq v (Value.bool true))
  | "sl_004" => do
      let a ← pyName env "operator_permission_level"
      let b ← pyName env "required_permission_level"
      pyLt a b
  | "tl_001" => do
      let v ← pyName env "action_threatens_system"
      Except.ok (pyEq v (Value.bool true))
  | "tl_002" => do
      let v ← pyName env "resource_usage"
      pyGt v (Value.int 90)
  | "tl_003" => do
      let v ← pyName env "action_type"
      Except.ok (pyEq v (Value.str "modify_logs"))
  | "tl_004" => do
      let v ← pyName env "communication_insecure"
      Except.ok (pyEq v (Value.bool true))
  | _ => Except.error "eval: condition outside the core rule set"

/-- `_evaluate_rule_condition` (lines 365-381): evaluate the condition
and turn any exception into `False` via the `try/except` block. -/
def evaluate_rule_condition (rule : SafetyRule) (action_type : String) (ctx : Context) : Bool :=
  match evalCondId rule.id (eval_env action_type ctx) with
  | Except.ok b => b
  | Except.error _ => false

/-- The local accumulator variables of `validate_action`
(lines 303-307). -/
structure EvalAcc where
  violated_laws : List AsimovLaw
  violated_rules : List String
  safety_level : SafetyLevel
  requires_approval : Bool
  recommendations : List String
deriving DecidableEq, Repr

/-- Python `max(a, b)` on `SafetyLevel` members.  `SafetyLevel` derives
from plain `Enum`, which defines no order comparison, so `max` raises
`TypeError` whenever it is called (lines 322 and 336). -/
def enumMax (a b : SafetyLevel) : Except String SafetyLevel :=
  Except.error "TypeError: unorderable SafetyLevel Enum members in max"

/-- The dangerous-pattern loop of `validate_action` (lines 315-322):
on each matching pattern, append a FIRST-law violation and the labelled
rule string, then call `max` on the levels — which raises. -/
def pattern_scan (desc : String) : List DangerPattern → EvalAcc → Except String EvalAcc
  | [], acc => Except.ok acc
  | p :: ps, acc =>
    if pat_search p.pat desc then do
      let lvl ← enumMax acc.safety_level SafetyLevel.DANGEROUS
      pattern_scan desc ps
        { acc with violated_laws := acc.violated_laws ++ [AsimovLaw.FIRST],
                   violated_rules := acc.violated_rules ++ ["dangerous_pattern: " ++ p.label],
                   safety_level := lvl }
    else
      pattern_scan desc ps acc

/-- The rule loop of `validate_action` (lines 324-340). -/
def rule_scan (action_type : String) (ctx : Context) : List SafetyRule → EvalAcc → Except String EvalAcc
  | [], acc => Except.ok acc
  | r :: rs, acc =>
    if r.enabled then
      if evaluate_rule_condition r action_type ctx then
        match r.action with
        | "block" =>
          rule_scan action_type ctx rs
            { acc with violated_laws := acc.violated_laws ++ [r.law],
                       violated_rules := acc.violated_rules ++ [r.id],
                       safety_level := SafetyLevel.PROHIBITED }
        | "require_approval" => do
          let lvl ← enumMax acc.safety_level SafetyLevel.CAUTION
          rule_scan action_type ctx rs
            { acc with requires_approval := true, safety_level := lvl,
                       recommendations := acc.recommendations ++ ["Requires approval: " ++ r.description] }
        | "require_justification" =>
          rule_scan action_type ctx rs
            { acc with requires_approval := true,
                       recommendations := acc.recommendations ++ ["Requires justification: " ++ r.description] }
        | _ => rule_scan action_type ctx rs acc
      else rule_scan action_type ctx rs acc
    else rule_scan action_type ctx rs acc

/-- `_generate_reason` (lines 383-396).  Python set iteration order is
modelled by the raw list order here; only the membership content of the
string is relied on by any theorem. -/
def generate_reason (violated_laws : List AsimovLaw) (violated_rules : List String)
    (safety_level : SafetyLevel) : String :=
  if violated_laws.isEmpty then
    "Action approved - no safety violations detected"
  else
    let law_name : AsimovLaw → String := fun l =>
      match l with
      | AsimovLaw.FIRST => "First Law (Do No Harm)"
      | AsimovLaw.SECOND => "Second Law (Obey Operators)"
      | AsimovLaw.THIRD => "Third Law (Self-Preservation)"
    "Action violates " ++ String.intercalate ", " (violated_laws.map law_name)
      ++ ". Safety level: " ++ safety_level.value
      ++ ". Rules: " ++ String.intercalate ", " violated_rules

/-- One entry of `self.safety_logs` (`_log_safety_check`, lines 493-499).
The wall-clock `timestamp` field is not modelled. -/
structure AuditEntry where
  action_type : String
  context : Context
  result : SafetyCheck
  emergency_stop_active : Bool
deriving DecidableEq, Repr

/-- The audit-trim policy of `_log_safety_check` (lines 503-505):
`if len(logs) > 10000: logs = logs[-10000:]`. -/
def log_trim (logs : List α) : List α :=
  if logs.length > 10000 then logs.drop (logs.length - 10000) else logs

/-- Append one audit entry and trim (lines 501-505). -/
def log_append (logs : List α) (e : α) : List α :=
  log_trim (logs ++ [e])

/-- The mutable fields of `AsimovSafetyEngine` (lines 64-70).  The rules
dict is a list in insertion order; `operator_overrides` is unused by the
checked operations and omitted. -/
structure EngineState where
  rules : List SafetyRule
  prohibited_actions : List String
  dangerous_patterns : List DangerPattern
  emergency_stop_active : Bool
  safety_logs : List AuditEntry
deriving DecidableEq, Repr

/-- The engine after `initialize()` (lines 72-87): core rules loaded,
prohibited actions and dangerous patterns installed, emergency stop
inactive, no logs. -/
def initialEngine : EngineState :=
  { rules := core_rules,
    prohibited_actions := prohibited_actions,
    dangerous_patterns := dangerous_patterns,
    emergency_stop_active := false,
    safety_logs := [] }

/-- `Python list(set(xs))`: duplicate removal.  Set iteration order is
unspecified in Python; it is modelled as first-occurrence order.  Only
membership and emptiness of the result are relied on by any theorem. -/
def py_set_list [DecidableEq α] : List α → List α
  | [] => []
  | a :: as => a :: ((py_set_list as).filter (fun x => x ≠ a))

/-- `_log_safety_check` (lines 491-505): build the audit entry from the
current check and append it to the bounded log. -/
def log_safety_check (st : EngineState) (action_type : String) (ctx : Context)
    (result : SafetyCheck) : EngineState :=
  let entry : AuditEntry :=
    { action_type := action_type, context := ctx, result := result,
      emergency_stop_active := st.emergency_stop_active }
  { st with safety_logs := log_append st.safety_logs entry }

/-- `validate_action` (lines 282-363).  Returns the verdict (or the
propagated Python exception) together with the engine state after the
call.  The emergency-stop early return (lines 293-301) returns before
`_log_safety_check` runs, so it leaves the state unchanged.  The
dangerous-pattern loop calls `re.search(pattern, description)`, which
raises `TypeError` when a non-string `description` value is present in
the context (only when there is at least one pattern to iterate). -/
def validate_action (st : EngineState) (action_type : String) (context : Context) :
    Except String SafetyCheck × EngineState :=
  if st.emergency_stop_active then
    (Except.ok
      { approved := false,
        violated_laws := [AsimovLaw.FIRST],
        violated_rules := ["emergency_stop"],
        safety_level := SafetyLevel.PROHIBITED,
        reason := "Emergency stop is active - all operations suspended",
        recommendations := ["Wait for emergency stop to be deactivated"] }, st)
  else
    let acc0 : EvalAcc :=
      if action_type ∈ st.prohibited_actions then
        { violated_laws := [AsimovLaw.FIRST], violated_rules := ["prohibited_action"],
          safety_level := SafetyLevel.PROHIBITED, requires_approval := false,
          recommendations := [] }
      else
        { violated_laws := [], violated_rules := [], safety_level := SafetyLevel.SAFE,
          requires_approval := false, recommendations := [] }
    let afterPats : Except String EvalAcc :=
      match pyGetDefault context "description" (Value.str "") with
      | Value.str desc => pattern_scan desc st.dangerous_patterns acc0
      | _ =>
        match st.dangerous_patterns with
        | [] => Except.ok acc0
        | _ => Except.error "TypeError: expected string or bytes-like object"
    match afterPats >>= rule_scan action_type context st.rules with
    | Except.error e => (Except.error e, st)
    | Except.ok acc =>
      let approved : Bool :=
        acc.violated_laws.isEmpty
        && !(acc.safety_level == SafetyLevel.PROHIBITED)
        && (!acc.requires_approval
            || pyTruthy (pyGetDefault context "operator_approved" (Value.bool false)))
      let result : SafetyCheck :=
        { approved := approved,
          violated_laws := py_set_list acc.violated_laws,
          violated_rules := acc.violated_rules,
          safety_level := acc.safety_level,
          reason := generate_reason acc.violated_laws acc.violated_rules acc.safety_level,
          recommendations := acc.recommendations,
          requires_approval := acc.requires_approval }
      (Except.ok result, log_safety_check st action_type context result)

/-- The argument of `validate_mission` (lines 398-415): a mission dict.
`objectives` is the value of the objectives key (a list, iterated by the
code), the remaining top-level fields are `fields`.  Each objective is
modelled as a scalar `Value`; no rule condition or pattern inspects the
objectives value itself, so the list-valued objectives entry of the
splatted dict is not re-added to the merged context. -/
structure MissionData where
  fields : Context
  objectives : List Value
deriving DecidableEq, Repr

/-- The merged per-objective context of `validate_mission` (lines
407-415): objective, mission_id and priority defaults, overridden by all
top-level mission fields (the `**mission_data` splat).  With first-match
lookup the overriding fields go first. -/
def mission_objective_context (m : MissionData) (o : Value) : Context :=
  m.fields ++
    [("objective", o),
     ("mission_id", pyGetDefault m.fields "id" Value.none),
     ("priority", pyGetDefault m.fields "priority" Value.none)]

/-- The per-objective loop of `validate_mission` (lines 406-416):
validate each objective in order, threading the engine state; an
exception in one check propagates and abandons the remaining ones. -/
def run_objective_checks (m : MissionData) :
    List Value → EngineState → Except String (List SafetyCheck) × EngineState
  | [], st => (Except.ok [], st)
  | o :: os, st =>
    match validate_action st "mission_objective" (mission_objective_context m o) with
    | (Except.error e, st1) => (Except.error e, st1)
    | (Except.ok c, st1) =>
      match run_objective_checks m os st1 with
      | (Except.error e, st2) => (Except.error e, st2)
      | (Except.ok cs, st2) => (Except.ok (c :: cs), st2)

/-- `validate_mission` (lines 398-443): run all per-objective checks and
aggregate them.  The aggregate verdict itself is not logged. -/
def validate_mission (st : EngineState) (m : MissionData) :
    Except String SafetyCheck × EngineState :=
  match run_objective_checks m m.objectives st with
  | (Except.error e, st1) => (Except.error e, st1)
  | (Except.ok checks, st1) =>
    let safety_level :=
      if checks.any (fun c => c.safety_level == SafetyLevel.PROHIBITED) then
        SafetyLevel.PROHIBITED
      else if checks.any (fun c => c.safety_level == SafetyLevel.DANGEROUS) then
        SafetyLevel.DANGEROUS
      else if checks.any (fun c => c.safety_level == SafetyLevel.CAUTION) then
        SafetyLevel.CAUTION
      else SafetyLevel.SAFE
    (Except.ok
      { approved := checks.all (fun c => c.approved),
        violated_laws := py_set_list (checks.foldl (fun acc c => acc ++ c.violated_laws) []),
        violated_rules := py_set_list (checks.foldl (fun acc c => acc ++ c.violated_rules) []),
        safety_level := safety_level,
        reason := "Mission validation: " ++ toString checks.length ++ " objectives checked",
        recommendations := [],
        requires_approval := checks.any (fun c => c.requires_approval) }, st1)

/-- `emergency_stop` (lines 457-473): set the flag, then log a fixed
prohibition verdict.  The logged context holds only the wall-clock
timestamp, which is not modelled. -/
def emergency_stop (st : EngineState) : EngineState :=
  let st1 := { st with emergency_stop_active := true }
  log_safety_check st1 "emergency_stop" [("timestamp", Value.none)]
    { approved := false,
      violated_laws := [],
      violated_rules := ["emergency_stop"],
      safety_level := SafetyLevel.PROHIBITED,
      reason := "Emergency stop activated by operator",
      recommendations := ["All operations suspended for safety"] }

/-- `deactivate_emergency_stop` (lines 475-478): clear the flag; the
operator id is only logged, and no audit entry is written. -/
def deactivate_emergency_stop (st : EngineState) (operator_id : String) : EngineState :=
  { st with emergency_stop_active := false }

/-- The context attribute names referenced by each core rule condition
(see the condition quoted at each rule definition).  `action_type` is
also referenced by fl_001 and tl_003 but is always bound in the
evaluation environment by `_evaluate_rule_condition`, so it is listed
too: missingness is stated against the evaluation environment. -/
def referenced_attrs : String → List String
  | "fl_001" => ["action_type"]
  | "fl_002" => ["target_type"]
  | "fl_003" => ["data_type"]
  | "fl_004" => ["operation_type"]
  | "fl_005" => ["involves_private_data"]
  | "sl_001" => ["operator_authenticated"]
  | "sl_002" => ["emergency_override", "authorization_level"]
  | "sl_003" => ["command_violates_first_law"]
  | "sl_004" => ["operator_permission_level", "required_permission_level"]
  | "tl_001" => ["action_threatens_system"]
  | "tl_002" => ["resource_usage"]
  | "tl_003" => ["action_type"]
  | "tl_004" => ["communication_insecure"]
  | _ => []

/-- Claim C1 (code_bug evidence): `validate_action` does propagate an
exception.  On action type network_scan with a context whose description
mentions ransomware, the dangerous-pattern branch reaches
`max(safety_level, SafetyLevel.DANGEROUS)` (line 322), which raises
`TypeError` because plain-`Enum` members are unorderable; the caller
receives the exception instead of a fail-closed verdict. -/
theorem validate_action_raises_on_dangerous_pattern :
    (validate_action initialEngine "network_scan"
        [("description", Value.str "deploy ransomware payload")]).1
      = Except.error "TypeError: unorderable SafetyLevel Enum members in max" := by
  rfl

/-- Claim C2 (code_bug evidence): the safety-level aggregation is not the
claimed max.  For a non-prohibited action whose description matches the
botnet pattern, the claimed invariant calls for a DANGEROUS verdict, but
the `max` call on unorderable `SafetyLevel` members raises `TypeError`
and no verdict is produced at all. -/
theorem safety_level_aggregation_raises_instead_of_max :
    (validate_action initialEngine "recon_scan"
        [("description", Value.str "botnet sweep")]).1
      = Except.error "TypeError: unorderable SafetyLevel Enum members in max" := by
  rfl

/-- Claim C4 (code_bug evidence): a prohibited action type does not yield
a PROHIBITED verdict for every context.  For doxxing (a member of the
prohibited set) with a description matching the DDoS pattern, evaluation
reaches `max(PROHIBITED, DANGEROUS)` and raises `TypeError` instead of
returning the claimed verdict. -/
theorem prohibited_action_raises_for_pattern_context :
    (validate_action initialEngine "doxxing"
        [("description", Value.str "ddos flood")]).1
      = Except.error "TypeError: unorderable SafetyLevel Enum members in max" := by
  rfl

/-- Claim C5 (code_bug evidence): `validate_mission` does not return an
aggregated verdict for every mission.  A mission whose top-level fields
carry a ransomware-matching description propagates that description into
every per-objective context, so the first objective check raises
`TypeError` and the whole mission validation raises instead of
aggregating. -/
theorem validate_mission_raises_on_pattern_in_fields :
    (validate_mission initialEngine
        { fields := [("description", Value.str "uses ransomware")],
          objectives := [Value.str "obj1"] }).1
      = Except.error "TypeError: unorderable SafetyLevel Enum members in max" := by
  rfl

/-- Claim C6 (code_bug evidence): the require_approval path never
completes.  On the claim's own scenario — action data_export with
data_type pii — rule fl_003 matches, `requires_approval` is set, and
then `max(safety_level, SafetyLevel.CAUTION)` (line 336) raises
`TypeError`, so no CAUTION/requires-approval verdict is returned. -/
theorem data_export_pii_raises_instead_of_approval :
    (validate_action initialEngine "data_export"
        [("data_type", Value.str "pii")]).1
      = Except.error "TypeError: unorderable SafetyLevel Enum members in max" := by
  rfl

/-- Claim C3 (counterexample): the emergency-stop short-circuit does NOT
write an audit entry.  With the stop active, `validate_action` returns
before `_log_safety_check` runs, so the log stays empty where the claim
requires a new entry. -/
theorem emergency_stop_short_circuit_writes_no_audit :
    (validate_action { initialEngine with emergency_stop_active := true }
        "port_scan" []).2.safety_logs.length = 0 := by
  rfl

/-- Claim C3 (amended): while the emergency stop is active, every
`validate_action` call short-circuits and returns `approved=false`,
`safetyLevel=PROHIBITED`, `violatedRules=["emergency_stop"]`, leaving
the engine state (audit log included) unchanged; after
`deactivate_emergency_stop`, evaluation of the same input behaves
exactly as with the stop flag cleared. -/
theorem emergency_stop_short_circuit (st : EngineState)
    (h : st.emergency_stop_active = true) (a oid : String) (c : Context) :
    validate_action st a c =
      (Except.ok
        { approved := false,
          violated_laws := [AsimovLaw.FIRST],
          violated_rules := ["emergency_stop"],
          safety_level := SafetyLevel.PROHIBITED,
          reason := "Emergency stop is active - all operations suspended",
          recommendations := ["Wait for emergency stop to be deactivated"] }, st)
    ∧ validate_action (deactivate_emergency_stop st oid) a c
        = validate_action { st with emergency_stop_active := false } a c := by
  refine ⟨?_, rfl⟩
  simp [validate_action, h]

/-- Witness for the amended C3 theorem at a concrete stopped engine. -/
theorem emergency_stop_short_circuit_witness :
    validate_action { initialEngine with emergency_stop_active := true }
        "scan_ports" [] =
      (Except.ok
        { approved := false,
          violated_laws := [AsimovLaw.FIRST],
          violated_rules := ["emergency_stop"],
          safety_level := SafetyLevel.PROHIBITED,
          reason := "Emergency stop is active - all operations suspended",
          recommendations := ["Wait for emergency stop to be deactivated"] },
       { initialEngine with emergency_stop_active := true })
    ∧ validate_action
        (deactivate_emergency_stop { initialEngine with emergency_stop_active := true } "op_1")
        "scan_ports" []
        = validate_action { initialEngine with emergency_stop_active := false }
            "scan_ports" [] :=
  emergency_stop_short_circuit { initialEngine with emergency_stop_active := true }
    rfl "scan_ports" "op_1" []

/-- Appending to a trimmed log never leaves more than 10000 entries:
either the trim branch fires and leaves exactly 10000, or the length was
already within the bound. -/
theorem log_append_length_le (logs : List α) (e : α) :
    (log_append logs e).length ≤ 10000 := by
  unfold log_append log_trim
  by_cases h : (logs ++ [e]).length > 10000
  · simp only [h, if_true, List.length_drop]
    omega
  · simp only [h, if_false]
    omega

/-- While the log is below capacity, `log_append` is a plain append. -/
theorem foldl_log_append_no_trim (es : List α) :
    ∀ acc : List α, acc.length + es.length ≤ 10000 →
      es.foldl log_append acc = acc ++ es := by
  induction es with
  | nil => intro acc _; simp
  | cons e es ih =>
    intro acc h
    simp only [List.length_cons] at h
    have hstep : log_append acc e = acc ++ [e] := by
      unfold log_append log_trim
      have hle : ¬ (acc ++ [e]).length > 10000 := by
        simp only [List.length_append, List.length_cons, List.length_nil]
        omega
      rw [if_neg hle]
    have hrec := ih (acc ++ [e]) (by
      simp only [List.length_append, List.length_cons, List.length_nil]
      omega)
    rw [List.foldl_cons, hstep, hrec]
    simp

/-- Claim C7: the audit trail never exceeds its capacity of 10000 at any
operation boundary (every append+trim leaves at most 10000 entries), and
eviction removes oldest entries first: folding capacity+1 sequential
appends of the distinct entries 0..10000 over the empty log leaves the
log without its oldest entry 0, with its most recent entry 10000, and at
exactly capacity. -/
theorem audit_trail_bounded_and_evicts_oldest :
    (∀ (logs : List AuditEntry) (e : AuditEntry), (log_append logs e).length ≤ 10000)
    ∧ 0 ∉ (List.range 10001).foldl log_append ([] : List Nat)
    ∧ 10000 ∈ (List.range 10001).foldl log_append ([] : List Nat)
    ∧ ((List.range 10001).foldl log_append ([] : List Nat)).length = 10000 := by
  have hsplit : List.range 10001 = List.range 10000 ++ [10000] := List.range_succ 10000
  have htailview : List.range 10001 = 0 :: List.range' 1 10000 := by
    rw [List.range_eq_range' 10001]
    rw [show (10001 : Nat) = 10000 + 1 from rfl]
    exact List.range'_succ 0 10000 1
  have hfold : (List.range 10001).foldl log_append ([] : List Nat) = List.range' 1 10000 := by
    rw [hsplit, List.foldl_append]
    have h2 : (List.range 10000).foldl log_append ([] : List Nat) = List.range 10000 := by
      have h3 := foldl_log_append_no_trim (List.range 10000) ([] : List Nat)
        (by simp)
      simpa using h3
    rw [h2, List.foldl_cons, List.foldl_nil]
    unfold log_append
    rw [← hsplit]
    unfold log_trim
    have hlen : (List.range 10001).length = 10001 := by simp
    rw [if_pos (by rw [hlen]; omega), hlen, htailview]
    simp
  refine ⟨fun logs e => log_append_length_le logs e, ?_, ?_, ?_⟩
  · rw [hfold]
    intro hmem
    rw [List.mem_range'_1] at hmem
    omega
  · rw [hfold, List.mem_range'_1]
    omega
  · rw [hfold]
    simp

/-- Lookup in an appended association list: the left list wins. -/
theorem lookup_append (l1 l2 : Context) (k : String) :
    (l1 ++ l2).lookup k = ((l1.lookup k).or (l2.lookup k)) := by
  induction l1 with
  | nil => simp [List.lookup]
  | cons p ps ih =>
    cases p with
    | mk k1 v1 =>
      simp only [List.cons_append, List.lookup]
      cases h : k == k1 <;> simp [ih]

/-- The evaluation environment of `_evaluate_rule_condition` always
binds `action_type` (the engine injects it). -/
theorem eval_env_action_type (a : String) (ctx : Context) :
    ((eval_env a ctx).lookup "action_type").isSome = true := by
  rw [eval_env, lookup_append]
  cases h : ctx.lookup "action_type" <;> simp [List.lookup, Option.or]

/-- Claim C8: for every core rule and every context in which an
attribute referenced by the rule condition is missing from the
evaluation environment, condition evaluation returns false rather than
raising — the `NameError` raised inside `eval` is swallowed by the
`try/except` of `_evaluate_rule_condition`, whose Lean model
(`evaluate_rule_condition`) is a total Bool-valued function, so no
evaluation-error category is reachable at request time. -/
theorem missing_attribute_eval_false (r : SafetyRule) (hr : r ∈ core_rules)
    (a : String) (ctx : Context)
    (h : ∃ v ∈ referenced_attrs r.id, ((eval_env a ctx).lookup v) = Option.none) :
    evaluate_rule_condition r a ctx = false := by
  obtain ⟨v, hv, hnone⟩ := h
  have hat := eval_env_action_type a ctx
  simp only [core_rules, List.mem_cons, List.not_mem_nil, or_false] at hr
  rcases hr with rfl | rfl | rfl | rfl | rfl | rfl | rfl | rfl | rfl | rfl | rfl | rfl | rfl
  · simp only [fl_001, referenced_attrs, List.mem_singleton] at hv
    subst hv
    rw [hnone] at hat
    simp at hat
  · simp only [fl_002, referenced_attrs, List.mem_singleton] at hv
    subst hv
    simp [evaluate_rule_condition, evalCondId, fl_002, pyName, hnone, Bind.bind, Except.bind]
  · simp only [fl_003, referenced_attrs, List.mem_singleton] at hv
    subst hv
    simp [evaluate_rule_condition, evalCondId, fl_003, pyName, hnone, Bind.bind, Except.bind]
  · simp only [fl_004, referenced_attrs, List.mem_singleton] at hv
    subst hv
    simp [evaluate_rule_condition, evalCondId, fl_004, pyName, hnone, Bind.bind, Except.bind]
  · simp only [fl_005, referenced_attrs, List.mem_singleton] at hv
    subst hv
    simp [evaluate_rule_condition, evalCondId, fl_005, pyName, hnone, Bind.bind, Except.bind]
  · simp only [sl_001, referenced_attrs, List.mem_singleton] at hv
    subst hv
    simp [evaluate_rule_condition, evalCondId, sl_001, pyName, hnone, Bind.bind, Except.bind]
  · simp only [sl_002, referenced_attrs, List.mem_cons, List.not_mem_nil, or_false] at hv
    rcases hv with rfl | rfl
    · simp [evaluate_rule_condition, evalCondId, sl_002, pyName, hnone, Bind.bind, Except.bind]
    · cases he : (eval_env a ctx).lookup "emergency_override" with
      | none => simp [evaluate_rule_condition, evalCondId, sl_002, pyName, he, Bind.bind, Except.bind]
      | some w =>
        cases hpe : pyEq w (Value.bool true) with
        | false => simp [evaluate_rule_condition, evalCondId, sl_002, pyName, he, hpe, Bind.bind, Except.bind]
        | true => simp [evaluate_rule_condition, evalCondId, sl_002, pyName, he, hpe, hnone, Bind.bind, Except.bind]
  · simp only [sl_003, referenced_attrs, List.mem_singleton] at hv
    subst hv
    simp [evaluate_rule_condition, evalCondId, sl_003, pyName, hnone, Bind.bind, Except.bind]
  · simp only [sl_004, referenced_attrs, List.mem_cons, List.not_mem_nil, or_false] at hv
    rcases hv with rfl | rfl
    · simp [evaluate_rule_condition, evalCondId, sl_004, pyName, hnone, Bind.bind, Except.bind]
    · cases he : (eval_env a ctx).lookup "operator_permission_level" with
      | none => simp [evaluate_rule_condition, evalCondId, sl_004, pyName, he, Bind.bind, Except.bind]
      | some w => simp [evaluate_rule_condition, evalCondId, sl_004, pyName, he, hnone, Bind.bind, Except.bind]
  · simp only [tl_001, referenced_attrs, List.mem_singleton] at hv
    subst hv
    simp [evaluate_rule_condition, evalCondId, tl_001, pyName, hnone, Bind.bind, Except.bind]
  · simp only [tl_002, referenced_attrs, List.mem_singleton] at hv
    subst hv
    simp [evaluate_rule_condition, evalCondId, tl_002, pyName, hnone, Bind.bind, Except.bind]
  · simp only [tl_003, referenced_attrs, List.mem_singleton] at hv
    subst hv
    rw [hnone] at hat
    simp at hat
  · simp only [tl_004, referenced_attrs, List.mem_singleton] at hv
    subst hv
    simp [evaluate_rule_condition, evalCondId, tl_004, pyName, hnone, Bind.bind, Except.bind]

/-- Witness for the C8 theorem: rule fl_002 with an empty context, whose
referenced attribute target_type is missing, evaluates to false. -/
theorem missing_attribute_eval_false_witness :
    evaluate_rule_condition fl_002 "network_scan" [] = false :=
  missing_attribute_eval_false fl_002 (by simp [core_rules]) "network_scan" []
    ⟨"target_type", by simp [fl_002, referenced_attrs], by rfl⟩

/-- Claim C10: the engine is default-allow for unknown action types.
For every action type outside the prohibited set that appears in no core
rule membership list over action_type (the fl_001 list and the tl_003
equality), `validate_action` on the initialized engine with an empty
context returns approved=true, safetyLevel=SAFE, empty violatedLaws and
violatedRules, and requiresApproval=false. -/
theorem unknown_action_default_allow (a : String)
    (h1 : a ∉ prohibited_actions)
    (h2 : a ∉ ["physical_access", "social_engineering", "doxxing"])
    (h3 : a ≠ "modify_logs") :
    (validate_action initialEngine a []).1 =
      Except.ok
        { approved := true, violated_laws := [], violated_rules := [],
          safety_level := SafetyLevel.SAFE,
          reason := "Action approved - no safety violations detected",
          recommendations := [], requires_approval := false } := by
  simp only [List.mem_cons, List.not_mem_nil, or_false] at h2
  push_neg at h2
  obtain ⟨n1, n2, n3⟩ := h2
  have hrs : ∀ acc : EvalAcc, rule_scan a [] core_rules acc = Except.ok acc := by
    intro acc
    simp [rule_scan, core_rules, evaluate_rule_condition, evalCondId, eval_env, pyName,
          List.lookup, pyEq, fl_001, fl_002, fl_003, fl_004, fl_005, sl_001, sl_002,
          sl_003, sl_004, tl_001, tl_002, tl_003, tl_004, n1, n2, n3, h3,
          Bind.bind, Except.bind]
  have hpat : pattern_scan "" dangerous_patterns
      { violated_laws := [], violated_rules := [], safety_level := SafetyLevel.SAFE,
        requires_approval := false, recommendations := [] } =
      Except.ok
      { violated_laws := [], violated_rules := [], safety_level := SafetyLevel.SAFE,
        requires_approval := false, recommendations := [] } := rfl
  simp [validate_action, initialEngine, h1, pyGetDefault, List.lookup, hpat, hrs,
        Bind.bind, Except.bind, generate_reason, py_set_list, pyTruthy]

/-- Witness for the C10 theorem at the concrete unknown action type
port_scan. -/
theorem unknown_action_default_allow_witness :
    (validate_action initialEngine "port_scan" []).1 =
      Except.ok
        { approved := true, violated_laws := [], violated_rules := [],
          safety_level := SafetyLevel.SAFE,
          reason := "Action approved - no safety violations detected",
          recommendations := [], requires_approval := false } :=
  unknown_action_default_allow "port_scan" (by decide) (by decide) (by decide)
